import Mathlib

/-!
Verification of the fairlearn fairness-metrics module (`examples/metrics.py`)
and the input-validation helpers (`fairlearn/utils/_input_validation.py`)
against their natural-language specification.

The Python code is shallowly embedded: label sequences become `List ℚ`,
prediction tables become lists of association-list rows whose cells are
`Option ℚ` (with `none` standing for a null / NA cell), Python exceptions
become `Except String`, and the pandas `DataFrame.query` calls on the
specific string shapes built by the source are modelled by dedicated
functions.
-/

namespace FairMetrics

/-! ### Confusion counting (`_compute_tpr_fpr`, `_compute_fpr_fnr`) -/

/-- The TP/FP/TN/FN tallies accumulated by the loops at
`metrics.py` lines 33-47 and 59-73. -/
structure Counts where
  TP : ℕ
  FP : ℕ
  TN : ℕ
  FN : ℕ
deriving DecidableEq, Repr

/-- The loop body shared by `_compute_tpr_fpr` and `_compute_fpr_fnr`
(`metrics.py` lines 37-47): for each paired `(y_true[i], y_pred[i])`,
if the true value equals the positive label the pair is a TP when the
prediction agrees and an FN otherwise; if not, the pair is an FP when the
prediction equals the positive label and a TN otherwise.  The loop walks
`range(len(y_true))` indexing both sequences, i.e. the zipped pairs when
the sequences have equal length. -/
def confusionCounts (positive_label : ℚ) : List ℚ → List ℚ → Counts
  | t :: ts, p :: ps =>
    let c := confusionCounts positive_label ts ps
    if t = positive_label then
      if t = p then { c with TP := c.TP + 1 } else { c with FN := c.FN + 1 }
    else
      if p = positive_label then { c with FP := c.FP + 1 } else { c with TN := c.TN + 1 }
  | _, _ => ⟨0, 0, 0, 0⟩

/-- `_compute_tpr_fpr` (`metrics.py` lines 32-56): counts the confusion
tallies and returns `(FPR, TPR)`, each ratio guarded to `0` when its
denominator is `0`. -/
def _compute_tpr_fpr (y_true y_pred : List ℚ) (positive_label : ℚ) : ℚ × ℚ :=
  let c := confusionCounts positive_label y_true y_pred
  let TPR : ℚ := if c.TP + c.FN = 0 then 0 else (c.TP : ℚ) / ((c.TP : ℚ) + (c.FN : ℚ))
  let FPR : ℚ := if c.FP + c.TN = 0 then 0 else (c.FP : ℚ) / ((c.FP : ℚ) + (c.TN : ℚ))
  (FPR, TPR)

/-- `_compute_fpr_fnr` (`metrics.py` lines 58-82): identical counting loop,
returns `(FNR, FPR)` with the same zero-denominator guards. -/
def _compute_fpr_fnr (y_true y_pred : List ℚ) (positive_label : ℚ) : ℚ × ℚ :=
  let c := confusionCounts positive_label y_true y_pred
  let FNR : ℚ := if c.TP + c.FN = 0 then 0 else (c.FN : ℚ) / ((c.TP : ℚ) + (c.FN : ℚ))
  let FPR : ℚ := if c.FP + c.TN = 0 then 0 else (c.FP : ℚ) / ((c.FP : ℚ) + (c.TN : ℚ))
  (FNR, FPR)

/-! ### Prediction tables and the pandas query strings built by the source -/

/-- A row of the prediction table: an association list from column name to
cell value, where `none` models a null (NA) cell. -/
abbrev Row : Type := List (String × Option ℚ)

/-- A prediction table: a list of rows; row order is the implicit (unique)
pandas index. -/
abbrev Table : Type := List Row

/-- Kleene three-valued conjunction, as pandas evaluates chained `&` over
nullable boolean columns (`none` = NA). -/
def kand : Option Bool → Option Bool → Option Bool
  | some false, _ => some false
  | _, some false => some false
  | some true, some true => some true
  | _, _ => none

/-- Kleene negation, for the `~(...)` query strings. -/
def knot : Option Bool → Option Bool
  | some b => some (!b)
  | none => none

/-- Evaluation of a single `k==v` conjunct on a row: `none` (unknown) when
the cell is null. A missing column is likewise treated as unknown; the
claims only build tables whose rows carry every queried column. -/
def evalEq (r : Row) (k : String) (v : ℚ) : Option Bool :=
  match r.lookup k with
  | none => none
  | some none => none
  | some (some c) => some (decide (c = v))

/-- Evaluation of the conjunction `k1==v1&k2==v2&...` built by
`"&".join(...)` at `metrics.py` lines 14, 85, 99 and 149. -/
def evalConj (conds : List (String × ℚ)) (r : Row) : Option Bool :=
  conds.foldl (fun acc kv => kand acc (evalEq r kv.1 kv.2)) (some true)

/-- `DataFrame.query` keeps the rows on which the predicate is definitely
true. -/
def matchesCond (conds : List (String × ℚ)) (r : Row) : Bool :=
  evalConj conds r == some true

def matchesNeg (conds : List (String × ℚ)) (r : Row) : Bool :=
  knot (evalConj conds r) == some true

def matchesCondAnd (conds : List (String × ℚ)) (kv : String × ℚ) (r : Row) : Bool :=
  kand (evalConj conds r) (evalEq r kv.1 kv.2) == some true

def matchesNegAnd (conds : List (String × ℚ)) (kv : String × ℚ) (r : Row) : Bool :=
  kand (knot (evalConj conds r)) (evalEq r kv.1 kv.2) == some true

def msgEmptyExpr : String := "ValueError: expr cannot be an empty string"

def msgParseError : String := "ValueError: invalid query syntax"

def msgZeroDiv : String := "ZeroDivisionError: division by zero"

/-- `data.query(query)` where `query = "&".join([f"{k}=={v}", ...])`
(`metrics.py` lines 14-16, 85-86, 149-152): the joined string is empty
exactly when the condition mapping is empty, and pandas rejects an empty
expression with a `ValueError`; otherwise the rows satisfying the
conjunction are kept. -/
def queryConj (t : Table) (conds : List (String × ℚ)) : Except String Table :=
  if conds.isEmpty then Except.error msgEmptyExpr
  else Except.ok (t.filter (fun r => matchesCond conds r))

/-- `data.query(query + "&" + label_query)` (`metrics.py` lines 17, 151):
with an empty condition mapping the built string starts with a dangling `&`
and pandas fails to parse it; otherwise the conjunction extended with the
label equality is used. -/
def queryConjAnd (t : Table) (conds : List (String × ℚ)) (kv : String × ℚ) :
    Except String Table :=
  if conds.isEmpty then Except.error msgParseError
  else Except.ok (t.filter (fun r => matchesCondAnd conds kv r))

/-- `data.query("~(" + query + ")")` (`metrics.py` lines 18, 155): with an
empty condition the built string is the unparsable `~()`; otherwise the
rows on which the negated conjunction is definitely true are kept. -/
def queryNeg (t : Table) (conds : List (String × ℚ)) : Except String Table :=
  if conds.isEmpty then Except.error msgParseError
  else Except.ok (t.filter (fun r => matchesNeg conds r))

/-- `data.query("~(" + query + ")&" + label_query)` (`metrics.py` lines 19,
154). -/
def queryNegAnd (t : Table) (conds : List (String × ℚ)) (kv : String × ℚ) :
    Except String Table :=
  if conds.isEmpty then Except.error msgParseError
  else Except.ok (t.filter (fun r => matchesNegAnd conds kv r))

/-- Python division: raises `ZeroDivisionError` when the denominator is 0;
there is no guard at the division sites of `_compute_probs` and
`statistical_parity`. -/
def pydiv (a b : ℚ) : Except String ℚ :=
  if b = 0 then Except.error msgZeroDiv else Except.ok (a / b)

/-- `_get_groups` (`metrics.py` lines 13-20). -/
def _get_groups (data : Table) (label_name : String) (positive_label : ℚ)
    (group_condition : List (String × ℚ)) :
    Except String (Table × Table × Table × Table) := do
  let unpriv_group ← queryConj data group_condition
  let unpriv_group_pos ← queryConjAnd data group_condition (label_name, positive_label)
  let priv_group ← queryNeg data group_condition
  let priv_group_pos ← queryNegAnd data group_condition (label_name, positive_label)
  pure (unpriv_group, unpriv_group_pos, priv_group, priv_group_pos)

/-- `_compute_probs` (`metrics.py` lines 23-29): the two divisions are
unguarded. -/
def _compute_probs (data_pred : Table) (label_name : String) (positive_label : ℚ)
    (group_condition : List (String × ℚ)) : Except String (ℚ × ℚ) := do
  let (unpriv_group, unpriv_group_pos, priv_group, priv_group_pos) ←
    _get_groups data_pred label_name positive_label group_condition
  let unpriv_group_prob ← pydiv (unpriv_group_pos.length : ℚ) (unpriv_group.length : ℚ)
  let priv_group_prob ← pydiv (priv_group_pos.length : ℚ) (priv_group.length : ℚ)
  pure (unpriv_group_prob, priv_group_prob)

/-- The value returned by `disparate_impact` (`metrics.py` lines 127-131):
`min(u/p, p/u)` when both rates are nonzero, else `0`. -/
def di_formula (u p : ℚ) : ℚ :=
  if u ≠ 0 ∧ p ≠ 0 then min (u / p) (p / u) else 0

/-- `disparate_impact` (`metrics.py` lines 112-131). -/
def disparate_impact (data_pred : Table) (group_condition : List (String × ℚ))
    (label_name : String) (positive_label : ℚ) : Except String ℚ := do
  let (unpriv_group_prob, priv_group_prob) ←
    _compute_probs data_pred label_name positive_label group_condition
  pure (di_formula unpriv_group_prob priv_group_prob)

/-- `statistical_parity` (`metrics.py` lines 134-157): row-count ratios of
the four query results, with unguarded divisions. -/
def statistical_parity (data_pred : Table) (group_condition : List (String × ℚ))
    (label_name : String) (positive_label : ℚ) : Except String ℚ := do
  let unpriv_pos ← queryConjAnd data_pred group_condition (label_name, positive_label)
  let unpriv ← queryConj data_pred group_condition
  let unpriv_group_prob ← pydiv (unpriv_pos.length : ℚ) (unpriv.length : ℚ)
  let priv_pos ← queryNegAnd data_pred group_condition (label_name, positive_label)
  let priv ← queryNeg data_pred group_condition
  let priv_group_prob ← pydiv (priv_pos.length : ℚ) (priv.length : ℚ)
  pure (unpriv_group_prob - priv_group_prob)

/-- `data_pred.drop(unpriv_group.index)` (`metrics.py` line 87): with the
default unique row index this removes exactly the rows selected by the
preceding query, i.e. it keeps the positional complement of the filtered
rows. -/
def privByDrop (t : Table) (conds : List (String × ℚ)) : Table :=
  t.filter (fun r => !(matchesCond conds r))

/-- `group[col].values.ravel()` extraction (`metrics.py` lines 88-91); the
claims only exercise tables whose relevant columns are fully defined, so a
missing or null cell surfaces as an error here. -/
def colVals (t : Table) (c : String) : Except String (List ℚ) :=
  t.mapM (fun r =>
    match r.lookup c with
    | some (some q) => Except.ok q
    | _ => Except.error "KeyError: missing or null cell")

/-- `_compute_tpr_fpr_groups` (`metrics.py` lines 84-96): unprivileged rows
by query, privileged rows by `drop` (set complement). -/
def _compute_tpr_fpr_groups (data_pred : Table) (label : String)
    (group_condition : List (String × ℚ)) (positive_label : ℚ)
    (label_name : String) : Except String (ℚ × ℚ × ℚ × ℚ) := do
  let unpriv_group ← queryConj data_pred group_condition
  let priv_group := privByDrop data_pred group_condition
  let y_true_unpriv ← colVals unpriv_group label_name
  let y_pred_unpriv ← colVals unpriv_group label
  let y_true_priv ← colVals priv_group label_name
  let y_pred_priv ← colVals priv_group label
  let (fpr_unpriv, tpr_unpriv) := _compute_tpr_fpr y_true_unpriv y_pred_unpriv positive_label
  let (fpr_priv, tpr_priv) := _compute_tpr_fpr y_true_priv y_pred_priv positive_label
  pure (fpr_unpriv, tpr_unpriv, fpr_priv, tpr_priv)

/-- The call sites at `metrics.py` lines 181-183 and 190-192 pass four
arguments to the five-parameter `_compute_tpr_fpr_groups` (the `label_name`
argument is missing), so Python raises `TypeError` at the call, before the
callee body runs. -/
def callGroupsMissingArg (_data_pred : Table) (_label : String)
    (_group_condition : List (String × ℚ)) (_positive_label : ℚ) :
    Except String (ℚ × ℚ × ℚ × ℚ) :=
  Except.error
    "TypeError: _compute_tpr_fpr_groups missing 1 required positional argument label_name"

/-- `true_pos_diff` (`metrics.py` lines 178-184). -/
def true_pos_diff (data_pred : Table) (group_condition : List (String × ℚ))
    (label : String) (positive_label : ℚ) : Except String ℚ := do
  let (fpr_unpriv, _tpr_unpriv, fpr_priv, _tpr_priv) ←
    callGroupsMissingArg data_pred label group_condition positive_label
  pure (fpr_unpriv - fpr_priv)

/-- `false_pos_diff` (`metrics.py` lines 187-193): textually identical body
to `true_pos_diff`. -/
def false_pos_diff (data_pred : Table) (group_condition : List (String × ℚ))
    (label : String) (positive_label : ℚ) : Except String ℚ := do
  let (fpr_unpriv, _tpr_unpriv, fpr_priv, _tpr_priv) ←
    callGroupsMissingArg data_pred label group_condition positive_label
  pure (fpr_unpriv - fpr_priv)

/-! ### Column merging (`_input_validation.py` lines 135-171) -/

/-- The separator `_MERGE_COLUMN_SEPARATOR` (line 39). -/
def sepChar : Char := ','

/-- The escape character used by `_join_names` (line 164). -/
def escChar : Char := '\\'

/-- The first `replace` in `_join_names` (line 164): one backslash becomes
two, applied over the character list of the stringified cell. -/
def replaceBackslashes (s : List Char) : List Char :=
  s.flatMap (fun c => if c = escChar then [escChar, escChar] else [c])

/-- The second `replace` in `_join_names` (lines 164-166): each separator
becomes backslash-separator. -/
def escapeSeparator (s : List Char) : List Char :=
  s.flatMap (fun c => if c = sepChar then [escChar, sepChar] else [c])

/-- Both replaces composed, in the order of the source. -/
def escapeCell (s : List Char) : List Char := escapeSeparator (replaceBackslashes s)

/-- The per-character encoding effected by the composed replaces. -/
def encChar (c : Char) : List Char :=
  if c = escChar then [escChar, escChar]
  else if c = sepChar then [escChar, sepChar]
  else [c]

/-- `_MERGE_COLUMN_SEPARATOR.join(...)` (line 160). -/
def joinSep : List (List Char) → List Char
  | [] => []
  | [x] => x
  | x :: xs => x ++ sepChar :: joinSep xs

/-- `_join_names` (lines 159-169): escape every stringified cell, then join
with the separator. -/
def _join_names (names : List (List Char)) : List Char :=
  joinSep (names.map escapeCell)

/-- `_merge_columns` (line 171): `_join_names` applied to each row of the
already-stringified array. -/
def _merge_columns (rows : List (List (List Char))) : List (List Char) :=
  rows.map _join_names

/-- Helper of the decoder: prepend a character to the first group. -/
def consHead (c : Char) : List (List Char) → List (List Char)
  | [] => [[c]]
  | g :: gs => (c :: g) :: gs

/-- Modelled from the spec (merge-rule round-trip): decode a merged key by
reverse-escaping and splitting on unescaped separators — a backslash takes
the following character literally, an unescaped separator starts a new
cell. -/
def unmergeChars : List Char → List (List Char)
  | [] => [[]]
  | c :: rest =>
    if c = escChar then
      match rest with
      | [] => [[c]]
      | d :: rest2 => consHead d (unmergeChars rest2)
    else if c = sepChar then [] :: unmergeChars rest
    else consHead c (unmergeChars rest)

/-- Helper for the round-trip proof: prepend a whole cell to the first
group. -/
def prependHead (s : List Char) : List (List Char) → List (List Char)
  | [] => [s]
  | g :: gs => (s ++ g) :: gs

/-! ### Distance metrics (`metrics.py` lines 232-247) -/

/-- `np.linalg.norm` of a 1-D vector: the square root of the sum of
squares. -/
noncomputable def l2norm (v : List ℝ) : ℝ :=
  Real.sqrt ((v.map (fun x => x ^ 2)).sum)

/-- `euclidean_distance` (`metrics.py` lines 232-235), on the extracted
`y_true` and predicted columns of the table:
`np.linalg.norm(y_true - y_pred) / len(df_pred)`, where `len(df_pred)` is
the common column length. -/
noncomputable def euclidean_distance (y_true y_pred : List ℝ) : ℝ :=
  l2norm (y_true.zipWith (fun a b => a - b) y_pred) / (y_true.length : ℝ)

/-- `mahalanobis_distance` (`metrics.py` lines 244-247):
`np.sqrt(np.sum(np.square(y_true - y_pred))) / len(df_pred)`. -/
noncomputable def mahalanobis_distance (y_true y_pred : List ℝ) : ℝ :=
  Real.sqrt (((y_true.zipWith (fun a b => a - b) y_pred).map (fun x => x ^ 2)).sum)
    / (y_true.length : ℝ)

/-! ### Input validation (`_input_validation.py` lines 42-132) -/

/-- A numpy array abstracted to its shape and (flattened, numeric) data;
the validation claims depend on shapes and sizes only. -/
structure NDArray where
  shape : List ℕ
  data : List ℚ
deriving DecidableEq

def NDArray.ndim (a : NDArray) : ℕ := a.shape.length

def NDArray.size (a : NDArray) : ℕ := a.shape.prod

def NDArray.rows (a : NDArray) : ℕ := a.shape.headD 0

/-- `y.reshape(-1)` (line 91). -/
def NDArray.reshapeFlat (a : NDArray) : NDArray := ⟨[a.size], a.data⟩

/-- `.squeeze()` as applied at lines 109 and 123: drops axes of extent 1. -/
def NDArray.squeeze (a : NDArray) : NDArray := ⟨a.shape.filter (fun d => d != 1), a.data⟩

/-- `_merge_columns` at the shape level (lines 106-107 and 120-121): an
`(n, m)` array of stringified cells becomes a length-`n` vector of
composite keys (the key contents themselves are modelled by
`_join_names`). -/
def NDArray.mergeShape (a : NDArray) : NDArray := ⟨[a.rows], a.data⟩

def msgYNone : String := "Must supply nonempty y"

def msgYShape : String := "y must be of shape n or n 1"

def msgLabelsNot01 : String := "Supplied y labels are not 0 or 1"

def msgXYRows : String := "X and y must have same number of rows"

def msgXSensitiveRows : String := "X and the sensitive features must have same number of rows"

def msgSFNone : String := "Must specify sensitive_features for now"

def msgX2D : String := "Expected 2D array"

def msgMinSamples : String := "Found array with 0 samples"

/-- sklearn `check_array(X, dtype=None, ensure_all_finite=False,
allow_nd=True)` (line 93): the default `ensure_2d` rejects arrays of fewer
than two dimensions, `allow_nd` accepts more, and the default
`ensure_min_samples=1` rejects an empty sample axis; otherwise the array
passes through unchanged at this level of abstraction. -/
def check_array_X (a : NDArray) : Except String NDArray :=
  if a.ndim < 2 then Except.error msgX2D
  else if a.rows = 0 then Except.error msgMinSamples
  else Except.ok a

/-- sklearn `check_array(f, ensure_2d=False, dtype=None)` (lines 103 and
117): accepts any dimensionality but still requires at least one sample. -/
def check_array_features (a : NDArray) : Except String NDArray :=
  if a.rows = 0 then Except.error msgMinSamples else Except.ok a

/-- The `expect_y` block of `_validate_and_reformat_input` (lines 81-91):
`y` must be present and non-empty, of shape `(n,)` or `(n,1)`, binary when
`enforce_binary_labels`, and is flattened to 1-D. -/
def validate_y (expect_y enforce_binary_labels : Bool) (y : Option NDArray) :
    Except String (Option NDArray) :=
  if expect_y then
    match y with
    | none => Except.error msgYNone
    | some a =>
      if a.size = 0 then Except.error msgYNone
      else if ¬ (a.ndim = 1 ∨ (a.ndim = 2 ∧ a.shape.getD 1 0 = 1)) then
        Except.error msgYShape
      else if enforce_binary_labels ∧
          ¬ (a.data.all (fun q => decide (q = 0 ∨ q = 1)) = true) then
        Except.error msgLabelsNot01
      else Except.ok (some a.reshapeFlat)
  else Except.ok y

/-- Line 97: the row-count check between the (reshaped) `y` and
`result_X`. -/
def check_xy_rows (y : Option NDArray) (rx : ℕ) : Except String Unit :=
  match y with
  | some yv => if yv.rows ≠ rx then Except.error msgXYRows else Except.ok ()
  | none => Except.ok ()

/-- Lines 100-111 for sensitive features (`expect` set, missing input
fails) and lines 114-123 for control features (`expect` false):
`check_consistent_length` against `X`, `check_array`, the multi-column
merge, and the squeeze. -/
def validate_features (rowsX : ℕ) (expect : Bool) (msgNone : String)
    (f : Option NDArray) : Except String (Option NDArray) :=
  match f with
  | some s =>
    if s.rows ≠ rowsX then Except.error msgXSensitiveRows
    else do
      let s ← check_array_features s
      let s := if s.ndim > 1 ∧ s.shape.getD 1 0 > 1 then s.mergeShape else s
      Except.ok (some s.squeeze)
  | none => if expect then Except.error msgNone else Except.ok none

/-- `_validate_and_reformat_input` (lines 42-132), assembled in source
order; the returned tuple is `(result_X, result_y, sensitive_features,
control_features)` with optional components kept as `Option`. -/
def _validate_and_reformat_input (X : NDArray) (y : Option NDArray)
    (expect_y expect_sensitive_features enforce_binary_labels : Bool)
    (sensitive_features control_features : Option NDArray) :
    Except String (NDArray × Option NDArray × Option NDArray × Option NDArray) := do
  let y ← validate_y expect_y enforce_binary_labels y
  let result_X ← check_array_X X
  let _ ← check_xy_rows y result_X.rows
  let sf ← validate_features X.rows expect_sensitive_features msgSFNone sensitive_features
  let cf ← validate_features X.rows false msgSFNone control_features
  pure (result_X, y, sf, cf)

/-- Whether an embedded Python computation completed without raising. -/
def isOkE {α : Type} (e : Except String α) : Bool :=
  match e with
  | Except.ok _ => true
  | Except.error _ => false

instance {ε α : Type} [DecidableEq ε] [DecidableEq α] : DecidableEq (Except ε α) :=
  fun x y =>
    match x, y with
    | .ok a, .ok b => if h : a = b then .isTrue (by rw [h]) else .isFalse (by simp [h])
    | .error a, .error b => if h : a = b then .isTrue (by rw [h]) else .isFalse (by simp [h])
    | .ok _, .error _ => .isFalse (by simp)
    | .error _, .ok _ => .isFalse (by simp)

lemma exbind_ok {α β : Type} (a : α) (f : α → Except String β) :
    Bind.bind (Except.ok a : Except String α) f = f a := rfl

lemma exbind_error {α β : Type} (m : String) (f : α → Except String β) :
    Bind.bind (Except.error m : Except String α) f = Except.error m := rfl

lemma exmap_error {α β : Type} (m : String) (f : α → β) :
    f <$> (Except.error m : Except String α) = Except.error m := rfl

lemma sep_ne_esc : sepChar ≠ escChar := by decide

lemma escapeCell_nil : escapeCell [] = [] := rfl

lemma escapeCell_cons (c : Char) (s : List Char) :
    escapeCell (c :: s) = encChar c ++ escapeCell s := by
  by_cases h1 : c = escChar
  · subst h1
    simp [escapeCell, replaceBackslashes, escapeSeparator, encChar, sep_ne_esc.symm]
  · by_cases h2 : c = sepChar
    · subst h2
      simp [escapeCell, replaceBackslashes, escapeSeparator, encChar, h1, sep_ne_esc.symm]
    · simp [escapeCell, replaceBackslashes, escapeSeparator, encChar, h1, h2]

lemma unmerge_esc (d : Char) (rest : List Char) :
    unmergeChars (escChar :: d :: rest) = consHead d (unmergeChars rest) := by
  simp [unmergeChars]

lemma unmerge_sep (rest : List Char) :
    unmergeChars (sepChar :: rest) = [] :: unmergeChars rest := by
  cases rest <;> simp [unmergeChars, sep_ne_esc]

lemma unmerge_other (c : Char) (h1 : c ≠ escChar) (h2 : c ≠ sepChar) (rest : List Char) :
    unmergeChars (c :: rest) = consHead c (unmergeChars rest) := by
  cases rest <;> simp [unmergeChars, h1, h2]

lemma consHead_ne_nil (c : Char) (l : List (List Char)) : consHead c l ≠ [] := by
  cases l <;> simp [consHead]

lemma unmerge_ne_nil (s : List Char) : unmergeChars s ≠ [] := by
  cases s with
  | nil => simp [unmergeChars]
  | cons c rest =>
    by_cases h1 : c = escChar
    · subst h1
      cases rest with
      | nil => simp [unmergeChars]
      | cons d rest2 => rw [unmerge_esc]; exact consHead_ne_nil d _
    · by_cases h2 : c = sepChar
      · subst h2; rw [unmerge_sep]; simp
      · rw [unmerge_other c h1 h2]; exact consHead_ne_nil c _

lemma consHead_prependHead (c : Char) (s : List Char) (l : List (List Char)) :
    consHead c (prependHead s l) = prependHead (c :: s) l := by
  cases l <;> simp [consHead, prependHead]

lemma unmerge_escape_append (s rest : List Char) :
    unmergeChars (escapeCell s ++ rest) = prependHead s (unmergeChars rest) := by
  induction s with
  | nil =>
    obtain ⟨g, gs, hE⟩ := List.exists_cons_of_ne_nil (unmerge_ne_nil rest)
    rw [escapeCell_nil, List.nil_append, hE]
    simp [prependHead]
  | cons c s ih =>
    rw [escapeCell_cons, List.append_assoc]
    by_cases h1 : c = escChar
    · subst h1
      rw [show encChar escChar = [escChar, escChar] from rfl]
      rw [show ([escChar, escChar] : List Char) ++ (escapeCell s ++ rest)
          = escChar :: escChar :: (escapeCell s ++ rest) from rfl]
      rw [unmerge_esc, ih, consHead_prependHead]
    · by_cases h2 : c = sepChar
      · subst h2
        rw [show encChar sepChar = [escChar, sepChar] from by simp [encChar, sep_ne_esc]]
        rw [show ([escChar, sepChar] : List Char) ++ (escapeCell s ++ rest)
            = escChar :: sepChar :: (escapeCell s ++ rest) from rfl]
        rw [unmerge_esc, ih, consHead_prependHead]
      · rw [show encChar c = [c] from by simp [encChar, h1, h2]]
        rw [show ([c] : List Char) ++ (escapeCell s ++ rest)
            = c :: (escapeCell s ++ rest) from rfl]
        rw [unmerge_other c h1 h2, ih, consHead_prependHead]

lemma unmerge_join (x : List Char) (xs : List (List Char)) :
    unmergeChars (_join_names (x :: xs)) = x :: xs := by
  induction xs generalizing x with
  | nil =>
    have hx : _join_names [x] = escapeCell x := rfl
    rw [hx, show escapeCell x = escapeCell x ++ [] from (List.append_nil _).symm,
      unmerge_escape_append]
    simp [unmergeChars, prependHead]
  | cons y ys ih =>
    have hJ : _join_names (x :: y :: ys)
        = escapeCell x ++ sepChar :: _join_names (y :: ys) := rfl
    rw [hJ, unmerge_escape_append, unmerge_sep, ih]
    simp [prependHead]

lemma confusionCounts_sum (positive_label : ℚ) :
    ∀ (yt yp : List ℚ), yt.length = yp.length →
      (confusionCounts positive_label yt yp).TP + (confusionCounts positive_label yt yp).FP
        + (confusionCounts positive_label yt yp).TN + (confusionCounts positive_label yt yp).FN
        = yt.length := by
  intro yt
  induction yt with
  | nil => intro yp _; simp [confusionCounts]
  | cons t ts ih =>
    intro yp h
    cases yp with
    | nil => simp at h
    | cons p ps =>
      have hlen : ts.length = ps.length := by simpa using h
      have hrec := ih ps hlen
      simp only [confusionCounts, List.length_cons]
      split_ifs <;> simp <;> omega

lemma guarded_ratio_bounds (a b : ℕ) :
    0 ≤ (if a + b = 0 then (0 : ℚ) else (a : ℚ) / ((a : ℚ) + (b : ℚ)))
      ∧ (if a + b = 0 then (0 : ℚ) else (a : ℚ) / ((a : ℚ) + (b : ℚ))) ≤ 1 := by
  split_ifs with h
  · exact ⟨le_refl 0, zero_le_one⟩
  · have hpos : (0 : ℚ) < (a : ℚ) + (b : ℚ) := by
      have : 0 < a + b := Nat.pos_of_ne_zero h
      exact_mod_cast this
    constructor
    · exact div_nonneg (by exact_mod_cast Nat.zero_le a) (le_of_lt hpos)
    · rw [div_le_one hpos]
      have : (a : ℚ) ≤ (a : ℚ) + (b : ℚ) := by
        have : (0 : ℚ) ≤ (b : ℚ) := by exact_mod_cast Nat.zero_le b
        linarith
      exact this

lemma guarded_ratio_bounds_snd (a b : ℕ) :
    0 ≤ (if a + b = 0 then (0 : ℚ) else (b : ℚ) / ((a : ℚ) + (b : ℚ)))
      ∧ (if a + b = 0 then (0 : ℚ) else (b : ℚ) / ((a : ℚ) + (b : ℚ))) ≤ 1 := by
  have := guarded_ratio_bounds b a
  simpa [Nat.add_comm, add_comm] using this

/-- Claim C1: for equal-length label/prediction sequences and any positive
label, the four counts of `_compute_tpr_fpr` / `_compute_fpr_fnr` sum to the
sequence length, the returned TPR, FPR and FNR each lie in `[0,1]`, and each
rate is exactly `0` when its denominator is `0`
(`_compute_tpr_fpr` returns `(FPR, TPR)`; `_compute_fpr_fnr` returns
`(FNR, FPR)`). -/
theorem C1_confusion_rate_consistency (yt yp : List ℚ) (pl : ℚ)
    (h : yt.length = yp.length) :
    (confusionCounts pl yt yp).TP + (confusionCounts pl yt yp).FP
      + (confusionCounts pl yt yp).TN + (confusionCounts pl yt yp).FN = yt.length
    ∧ (0 ≤ (_compute_tpr_fpr yt yp pl).2 ∧ (_compute_tpr_fpr yt yp pl).2 ≤ 1)
    ∧ (0 ≤ (_compute_tpr_fpr yt yp pl).1 ∧ (_compute_tpr_fpr yt yp pl).1 ≤ 1)
    ∧ (0 ≤ (_compute_fpr_fnr yt yp pl).1 ∧ (_compute_fpr_fnr yt yp pl).1 ≤ 1)
    ∧ ((confusionCounts pl yt yp).TP + (confusionCounts pl yt yp).FN = 0 →
        (_compute_tpr_fpr yt yp pl).2 = 0)
    ∧ ((confusionCounts pl yt yp).FP + (confusionCounts pl yt yp).TN = 0 →
        (_compute_tpr_fpr yt yp pl).1 = 0)
    ∧ ((confusionCounts pl yt yp).TP + (confusionCounts pl yt yp).FN = 0 →
        (_compute_fpr_fnr yt yp pl).1 = 0) := by
  refine ⟨confusionCounts_sum pl yt yp h, ?_, ?_, ?_, ?_, ?_, ?_⟩
  · simpa only [_compute_tpr_fpr] using
      guarded_ratio_bounds (confusionCounts pl yt yp).TP (confusionCounts pl yt yp).FN
  · simpa only [_compute_tpr_fpr] using
      guarded_ratio_bounds (confusionCounts pl yt yp).FP (confusionCounts pl yt yp).TN
  · simpa only [_compute_fpr_fnr] using
      guarded_ratio_bounds_snd (confusionCounts pl yt yp).TP (confusionCounts pl yt yp).FN
  · intro h0; simp [_compute_tpr_fpr, h0]
  · intro h0; simp [_compute_tpr_fpr, h0]
  · intro h0; simp [_compute_fpr_fnr, h0]

/-- Witness for C1 at the concrete input `y_true = [1, 0]`, `y_pred = [1, 1]`,
`positive_label = 1`. -/
theorem C1_confusion_rate_consistency_witness :
    ([1, 0] : List ℚ).length = ([1, 1] : List ℚ).length
    ∧ ((confusionCounts 1 [1, 0] [1, 1]).TP + (confusionCounts 1 [1, 0] [1, 1]).FP
        + (confusionCounts 1 [1, 0] [1, 1]).TN + (confusionCounts 1 [1, 0] [1, 1]).FN
        = ([1, 0] : List ℚ).length
      ∧ (0 ≤ (_compute_tpr_fpr [1, 0] [1, 1] 1).2 ∧ (_compute_tpr_fpr [1, 0] [1, 1] 1).2 ≤ 1)
      ∧ (0 ≤ (_compute_tpr_fpr [1, 0] [1, 1] 1).1 ∧ (_compute_tpr_fpr [1, 0] [1, 1] 1).1 ≤ 1)
      ∧ (0 ≤ (_compute_fpr_fnr [1, 0] [1, 1] 1).1 ∧ (_compute_fpr_fnr [1, 0] [1, 1] 1).1 ≤ 1)
      ∧ ((confusionCounts 1 [1, 0] [1, 1]).TP + (confusionCounts 1 [1, 0] [1, 1]).FN = 0 →
          (_compute_tpr_fpr [1, 0] [1, 1] 1).2 = 0)
      ∧ ((confusionCounts 1 [1, 0] [1, 1]).FP + (confusionCounts 1 [1, 0] [1, 1]).TN = 0 →
          (_compute_tpr_fpr [1, 0] [1, 1] 1).1 = 0)
      ∧ ((confusionCounts 1 [1, 0] [1, 1]).TP + (confusionCounts 1 [1, 0] [1, 1]).FN = 0 →
          (_compute_fpr_fnr [1, 0] [1, 1] 1).1 = 0)) :=
  ⟨rfl, C1_confusion_rate_consistency [1, 0] [1, 1] 1 rfl⟩

/-- Claim C5: on `y_true = [1,1,1,1,1,0,0,0,0,0]`,
`y_pred = [1,1,0,0,0,0,0,1,1,0]` with positive label 1, the counts are
TP = 2, FP = 2, TN = 3, FN = 3 and `_compute_tpr_fpr` returns
`(FPR, TPR) = (2/5, 2/5)`, i.e. `(0.4, 0.4)`. -/
theorem C5_concrete_tpr_fpr_scenario :
    confusionCounts 1 [1, 1, 1, 1, 1, 0, 0, 0, 0, 0] [1, 1, 0, 0, 0, 0, 0, 1, 1, 0]
      = ⟨2, 2, 3, 3⟩
    ∧ _compute_tpr_fpr [1, 1, 1, 1, 1, 0, 0, 0, 0, 0] [1, 1, 0, 0, 0, 0, 0, 1, 1, 0] 1
      = (2 / 5, 2 / 5) := by
  have hc : confusionCounts (1 : ℚ) [1, 1, 1, 1, 1, 0, 0, 0, 0, 0]
      [1, 1, 0, 0, 0, 0, 0, 1, 1, 0] = ⟨2, 2, 3, 3⟩ := by decide
  refine ⟨hc, ?_⟩
  simp only [_compute_tpr_fpr, hc]
  norm_num

/-- Counterexample for claim C3: on a one-row table whose condition selects
0 rows, `disparate_impact` and `statistical_parity` both raise
`ZeroDivisionError` (the division in `_compute_probs` and in
`statistical_parity` is unguarded); neither returns 0. -/
theorem C3_zero_row_counterexample :
    disparate_impact [[("a", some 5), ("y", some 1)]] [("a", 0)] "y" 1
      = Except.error msgZeroDiv
    ∧ statistical_parity [[("a", some 5), ("y", some 1)]] [("a", 0)] "y" 1
      = Except.error msgZeroDiv
    ∧ disparate_impact [[("a", some 5), ("y", some 1)]] [("a", 0)] "y" 1
      ≠ Except.ok 0
    ∧ statistical_parity [[("a", some 5), ("y", some 1)]] [("a", 0)] "y" 1
      ≠ Except.ok 0 := by
  refine ⟨by decide, by decide, by decide, by decide⟩

/-- Claim C3 as amended: whenever the (nonempty) group condition selects 0
rows, the unprivileged denominator is `len([]) = 0` and both
`disparate_impact` and `statistical_parity` raise `ZeroDivisionError`
instead of returning 0. -/
theorem C3_zero_row_group_raises (t : Table) (conds : List (String × ℚ))
    (l : String) (pl : ℚ) (h1 : conds ≠ [])
    (h2 : queryConj t conds = Except.ok []) :
    disparate_impact t conds l pl = Except.error msgZeroDiv
    ∧ statistical_parity t conds l pl = Except.error msgZeroDiv := by
  have hne : conds.isEmpty = false := by
    cases conds with
    | nil => exact absurd rfl h1
    | cons a as => rfl
  constructor
  · simp [disparate_impact, _compute_probs, _get_groups, h2, queryConjAnd, queryNeg,
      queryNegAnd, hne, pydiv, exbind_ok, exbind_error, exmap_error]
  · simp [statistical_parity, h2, queryConjAnd, queryNeg, queryNegAnd, hne, pydiv,
      exbind_ok, exbind_error, exmap_error]

/-- Witness for C3 (amended) at a concrete table and condition. -/
theorem C3_zero_row_group_raises_witness :
    (([("a", (0 : ℚ))] : List (String × ℚ)) ≠ []
      ∧ queryConj [[("a", some 5), ("y", some 1)]] [("a", 0)] = Except.ok [])
    ∧ (disparate_impact [[("a", some 5), ("y", some 1)]] [("a", 0)] "y" 1
        = Except.error msgZeroDiv
      ∧ statistical_parity [[("a", some 5), ("y", some 1)]] [("a", 0)] "y" 1
        = Except.error msgZeroDiv) :=
  ⟨⟨by decide, by decide⟩,
    C3_zero_row_group_raises [[("a", some 5), ("y", some 1)]] [("a", 0)] "y" 1
      (by decide) (by decide)⟩

/-- Counterexample for claim C4: `_get_groups` computes the privileged
group by the negated predicate `~(...)`, not by set complement; on a table
whose condition attribute is null the row lands in neither group, so the
produced subsets do not union to the full table.  `privByDrop` (the
complement used by `_compute_tpr_fpr_groups`) keeps the row. -/
theorem C4_null_partition_counterexample :
    _get_groups [[("a", none), ("y", some 1)]] "y" 1 [("a", 0)]
      = Except.ok ([], [], [], [])
    ∧ ([[("a", none), ("y", some 1)]] : Table) ≠ []
    ∧ privByDrop [[("a", none), ("y", some 1)]] [("a", 0)]
      = [[("a", none), ("y", some 1)]] :=
  ⟨rfl, by decide, rfl⟩

/-- Claim C4 as amended: in `_compute_tpr_fpr_groups` the privileged subset
is `privByDrop`, the positional set complement of the query result, so for
any (nonempty) condition the two subsets are disjoint and their
concatenation is a permutation of the full table — even when condition
attributes contain null values.  (For `_get_groups`, which uses the negated
predicate, completeness fails on null cells: see the counterexample.) -/
theorem C4_drop_partition_complete (t : Table) (conds : List (String × ℚ))
    (h : conds ≠ []) :
    ∃ unpriv, queryConj t conds = Except.ok unpriv
      ∧ (unpriv ++ privByDrop t conds).Perm t
      ∧ unpriv.length + (privByDrop t conds).length = t.length
      ∧ ∀ r ∈ unpriv, r ∉ privByDrop t conds := by
  have hne : conds.isEmpty = false := by
    cases conds with
    | nil => exact absurd rfl h
    | cons a as => rfl
  refine ⟨t.filter (fun r => matchesCond conds r), by simp [queryConj, hne], ?_, ?_, ?_⟩
  · simpa [privByDrop] using List.filter_append_perm (fun r => matchesCond conds r) t
  · have hp := (List.filter_append_perm (fun r => matchesCond conds r) t).length_eq
    simpa [privByDrop] using hp
  · intro r hr hr2
    have h1 := (List.mem_filter.mp hr).2
    have h2 := (List.mem_filter.mp hr2).2
    rw [h1] at h2
    exact Bool.false_ne_true h2

/-- Witness for C4 (amended) at a concrete table and condition. -/
theorem C4_drop_partition_complete_witness :
    (([("a", (1 : ℚ))] : List (String × ℚ)) ≠ [])
    ∧ (∃ unpriv, queryConj [[("a", some 1)]] [("a", 1)] = Except.ok unpriv
        ∧ (unpriv ++ privByDrop [[("a", some 1)]] [("a", 1)]).Perm [[("a", some 1)]]
        ∧ unpriv.length + (privByDrop [[("a", some 1)]] [("a", 1)]).length
          = ([[("a", some 1)]] : Table).length
        ∧ ∀ r ∈ unpriv, r ∉ privByDrop [[("a", some 1)]] [("a", 1)]) :=
  ⟨by decide, C4_drop_partition_complete [[("a", some 1)]] [("a", 1)] (by decide)⟩

/-- Claim C6 (code defect): `true_pos_diff` and `false_pos_diff` have
textually identical bodies, but every call raises `TypeError` because they
invoke the five-parameter `_compute_tpr_fpr_groups` with only four
arguments; neither ever returns `FPRu - FPRp`. Evaluated here at a concrete
input. -/
theorem C6_pos_diff_type_error :
    true_pos_diff [[("y_true", some 1), ("pred", some 1)]] [("a", 1)] "pred" 1
      = false_pos_diff [[("y_true", some 1), ("pred", some 1)]] [("a", 1)] "pred" 1
    ∧ true_pos_diff [[("y_true", some 1), ("pred", some 1)]] [("a", 1)] "pred" 1
      = Except.error
        "TypeError: _compute_tpr_fpr_groups missing 1 required positional argument label_name"
    ∧ false_pos_diff [[("y_true", some 1), ("pred", some 1)]] [("a", 1)] "pred" 1
      = Except.error
        "TypeError: _compute_tpr_fpr_groups missing 1 required positional argument label_name" :=
  ⟨rfl, rfl, rfl⟩

/-- Counterexample for claim C7: an empty group condition makes
`"&".join(...)` the empty string, which pandas `query` rejects; on a
concrete one-row table `_get_groups` and `statistical_parity` raise instead
of selecting the full table. -/
theorem C7_empty_condition_counterexample :
    _get_groups [[("a", some 1), ("y", some 1)]] "y" 1 []
      = Except.error msgEmptyExpr
    ∧ statistical_parity [[("a", some 1), ("y", some 1)]] [] "y" 1
      = Except.error msgParseError := ⟨rfl, rfl⟩

/-- Claim C7 as amended: for every table, an empty condition mapping yields
an empty (or dangling-`&`) query string, so `_get_groups`,
`disparate_impact` and `statistical_parity` all raise a `ValueError` rather
than selecting the full table as the unprivileged group. -/
theorem C7_empty_condition_raises (t : Table) (l : String) (pl : ℚ) :
    _get_groups t l pl [] = Except.error msgEmptyExpr
    ∧ disparate_impact t [] l pl = Except.error msgEmptyExpr
    ∧ statistical_parity t [] l pl = Except.error msgParseError :=
  ⟨rfl, rfl, rfl⟩

/-- Claim C9: whenever `_compute_probs` succeeds, `disparate_impact`
returns `di_formula` of the two rates; that value is invariant under
swapping the unprivileged and privileged rates, and is 0 whenever either
rate is 0. -/
theorem C9_disparate_impact_symmetry (t : Table) (conds : List (String × ℚ))
    (l : String) (pl : ℚ) (pu pp : ℚ)
    (h : _compute_probs t l pl conds = Except.ok (pu, pp)) :
    disparate_impact t conds l pl = Except.ok (di_formula pu pp)
    ∧ di_formula pu pp = di_formula pp pu
    ∧ ((pu = 0 ∨ pp = 0) → di_formula pu pp = 0) := by
  refine ⟨?_, ?_, ?_⟩
  · simp [disparate_impact, h, exbind_ok]
  · by_cases h1 : pu = 0 <;> by_cases h2 : pp = 0 <;>
      simp [di_formula, h1, h2, min_comm]
  · rintro (h0 | h0) <;> simp [di_formula, h0]

/-- Witness for C9 at a concrete two-row table with both rates equal to 1. -/
theorem C9_disparate_impact_symmetry_witness :
    _compute_probs [[("a", some 0), ("y", some 1)], [("a", some 1), ("y", some 1)]]
      "y" 1 [("a", 0)] = Except.ok (1, 1)
    ∧ (disparate_impact [[("a", some 0), ("y", some 1)], [("a", some 1), ("y", some 1)]]
        [("a", 0)] "y" 1 = Except.ok (di_formula 1 1)
      ∧ di_formula 1 1 = di_formula 1 1
      ∧ (((1 : ℚ) = 0 ∨ (1 : ℚ) = 0) → di_formula 1 1 = 0)) := by
  have hu : queryConj [[("a", some 0), ("y", some 1)], [("a", some 1), ("y", some 1)]]
      [("a", 0)] = Except.ok [[("a", some 0), ("y", some 1)]] := by decide
  have hup : queryConjAnd [[("a", some 0), ("y", some 1)], [("a", some 1), ("y", some 1)]]
      [("a", 0)] ("y", 1) = Except.ok [[("a", some 0), ("y", some 1)]] := by decide
  have hp : queryNeg [[("a", some 0), ("y", some 1)], [("a", some 1), ("y", some 1)]]
      [("a", 0)] = Except.ok [[("a", some 1), ("y", some 1)]] := by decide
  have hpp : queryNegAnd [[("a", some 0), ("y", some 1)], [("a", some 1), ("y", some 1)]]
      [("a", 0)] ("y", 1) = Except.ok [[("a", some 1), ("y", some 1)]] := by decide
  have hprobs : _compute_probs
      [[("a", some 0), ("y", some 1)], [("a", some 1), ("y", some 1)]]
      "y" 1 [("a", 0)] = Except.ok (1, 1) := by
    simp [_compute_probs, _get_groups, hu, hup, hp, hpp, exbind_ok, pydiv]
  exact ⟨hprobs,
    C9_disparate_impact_symmetry
      [[("a", some 0), ("y", some 1)], [("a", some 1), ("y", some 1)]]
      [("a", 0)] "y" 1 1 1 hprobs⟩

/-- Claim C2: `_join_names` escapes backslash and separator inside each
stringified cell and joins with the separator, so the original per-column
strings are recoverable by reverse-escaping and splitting on unescaped
separators (`unmergeChars`), and two rows produce the same composite key
iff their stringified cells are identical; `_merge_columns` applies
`_join_names` row-wise. -/
theorem C2_merge_roundtrip_injective (r1 r2 : List (List Char))
    (h1 : r1 ≠ []) (h2 : r2 ≠ []) :
    unmergeChars (_join_names r1) = r1
    ∧ (_join_names r1 = _join_names r2 ↔ r1 = r2)
    ∧ _merge_columns [r1, r2] = [_join_names r1, _join_names r2] := by
  obtain ⟨x, xs, rfl⟩ := List.exists_cons_of_ne_nil h1
  obtain ⟨y, ys, rfl⟩ := List.exists_cons_of_ne_nil h2
  refine ⟨unmerge_join x xs, ⟨fun hm => ?_, fun he => by rw [he]⟩, rfl⟩
  have hc := congrArg unmergeChars hm
  rwa [unmerge_join, unmerge_join] at hc

/-- Witness for C2 on two distinct rows whose cells contain the separator
and the backslash. -/
theorem C2_merge_roundtrip_injective_witness :
    (([['a', ','], ['\\']] : List (List Char)) ≠ []
      ∧ ([[','], ['\\', 'b']] : List (List Char)) ≠ [])
    ∧ (unmergeChars (_join_names [['a', ','], ['\\']]) = [['a', ','], ['\\']]
      ∧ (_join_names [['a', ','], ['\\']] = _join_names [[','], ['\\', 'b']]
          ↔ ([['a', ','], ['\\']] : List (List Char)) = [[','], ['\\', 'b']])
      ∧ _merge_columns [[['a', ','], ['\\']], [[','], ['\\', 'b']]]
        = [_join_names [['a', ','], ['\\']], _join_names [[','], ['\\', 'b']]]) :=
  ⟨⟨by decide, by decide⟩,
    C2_merge_roundtrip_injective [['a', ','], ['\\']] [[','], ['\\', 'b']]
      (by decide) (by decide)⟩

/-- Claim C10: `euclidean_distance` and `mahalanobis_distance` compute the
same value, the L2 norm of the difference of the true and predicted
columns divided by the number of rows; the latter is not a
covariance-weighted Mahalanobis statistic. -/
theorem C10_euclidean_mahalanobis_equal (yt yp : List ℝ)
    (h1 : yt.length = yp.length) (h2 : 1 ≤ yt.length) :
    euclidean_distance yt yp = mahalanobis_distance yt yp
    ∧ euclidean_distance yt yp
      = l2norm (yt.zipWith (fun a b => a - b) yp) / (yt.length : ℝ) :=
  ⟨rfl, rfl⟩

/-- Witness for C10 at the one-row table with `y_true = [1]`,
`y_pred = [0]`. -/
theorem C10_euclidean_mahalanobis_equal_witness :
    (([1] : List ℝ).length = ([0] : List ℝ).length ∧ 1 ≤ ([1] : List ℝ).length)
    ∧ (euclidean_distance [1] [0] = mahalanobis_distance [1] [0]
      ∧ euclidean_distance [1] [0]
        = l2norm (([1] : List ℝ).zipWith (fun a b => a - b) [0])
          / (([1] : List ℝ).length : ℝ)) :=
  ⟨⟨rfl, by decide⟩, C10_euclidean_mahalanobis_equal [1] [0] rfl (by decide)⟩

lemma validate_y_shape_n2 (eb : Bool) (a : NDArray) (n : ℕ)
    (hsh : a.shape = [n, 2]) :
    validate_y true eb (some a) = Except.error msgYNone
    ∨ validate_y true eb (some a) = Except.error msgYShape := by
  by_cases hz : a.size = 0
  · left; simp [validate_y, hz]
  · right
    simp [validate_y, hz, hsh, NDArray.ndim]

/-- Claim C8: with `expect_y`, a `y` of shape `(n, 2)` is rejected by
`_validate_and_reformat_input`; and a `sensitive_features` argument whose
row count differs from `X`'s is rejected; in both cases no canonical tuple
is returned. -/
theorem C8_validator_shape_rejection :
    (∀ (X a : NDArray) (n : ℕ) (esf eb : Bool) (sf cf : Option NDArray),
      a.shape = [n, 2] →
      isOkE (_validate_and_reformat_input X (some a) true esf eb sf cf) = false)
    ∧ (∀ (X : NDArray) (y : Option NDArray) (ey esf eb : Bool) (s : NDArray)
        (cf : Option NDArray), s.rows ≠ X.rows →
      isOkE (_validate_and_reformat_input X y ey esf eb (some s) cf) = false) := by
  constructor
  · intro X a n esf eb sf cf hsh
    rcases validate_y_shape_n2 eb a n hsh with hv | hv <;>
      simp [_validate_and_reformat_input, hv, exbind_error, isOkE]
  · intro X y ey esf eb s cf hs
    have hsf : validate_features X.rows esf msgSFNone (some s)
        = Except.error msgXSensitiveRows := by
      simp [validate_features, hs]
    cases hy : validate_y ey eb y with
    | error m => simp [_validate_and_reformat_input, hy, exbind_error, isOkE]
    | ok yv =>
      cases hX : check_array_X X with
      | error m =>
        simp [_validate_and_reformat_input, hy, hX, exbind_ok, exbind_error, isOkE]
      | ok rx =>
        cases hxy : check_xy_rows yv rx.rows with
        | error m =>
          simp [_validate_and_reformat_input, hy, hX, hxy, exbind_ok, exbind_error, isOkE]
        | ok u =>
          simp [_validate_and_reformat_input, hy, hX, hxy, hsf, exbind_ok,
            exbind_error, isOkE]

/-- Witness for C8: a `(2, 2)`-shaped `y` against a `(3, 1)` feature
matrix, and sensitive features with 2 rows against 3 feature rows. -/
theorem C8_validator_shape_rejection_witness :
    ((⟨[2, 2], [0, 0, 0, 0]⟩ : NDArray).shape = [2, 2]
      ∧ isOkE (_validate_and_reformat_input ⟨[3, 1], [0, 0, 0]⟩
          (some ⟨[2, 2], [0, 0, 0, 0]⟩) true true false none none) = false)
    ∧ ((⟨[2], [0, 0]⟩ : NDArray).rows ≠ (⟨[3, 1], [0, 0, 0]⟩ : NDArray).rows
      ∧ isOkE (_validate_and_reformat_input ⟨[3, 1], [0, 0, 0]⟩
          (some ⟨[3], [0, 0, 0]⟩) true true false (some ⟨[2], [0, 0]⟩) none) = false) :=
  ⟨⟨rfl, C8_validator_shape_rejection.1 ⟨[3, 1], [0, 0, 0]⟩ ⟨[2, 2], [0, 0, 0, 0]⟩ 2
      true false none none rfl⟩,
    ⟨by decide, C8_validator_shape_rejection.2 ⟨[3, 1], [0, 0, 0]⟩
      (some ⟨[3], [0, 0, 0]⟩) true true false ⟨[2], [0, 0]⟩ none (by decide)⟩⟩

end FairMetrics
